import Mathlib

/-!
Shallow embedding of the credential/account subsystem of the
jurnal-mengajar repository.

Two variants of the subsystem coexist in the source:
  * `src/register.js` — teacher identity is an 18-digit NIP, checked for
    uniqueness directly among registered accounts (namespace `Nip` below);
  * `src/unnamed/part_002` — teacher identity is an administrator-issued
    authentication code tracked in a separate auth-code registry
    (namespace `Code` below).

JavaScript strings are modelled as Lean `String`; an absent (`undefined`)
input field is modelled as `""`, which is observationally equivalent here
because every access to an optional field in the source is either a
truthiness test (`!x`, `x || ''`) or is guarded by such a test.
`localStorage` is modelled as an explicit storage record threaded through
each operation; the JSON serialize/parse round-trip is taken as faithful.
`Date.now()` and `new Date().toISOString()` are modelled as explicit
parameters, and the external browser primitive
`crypto.subtle.digest('SHA-256', ·)` (hex-encoded) as an abstract function
parameter `sha256hex`, since its code is not part of the repository.
-/

namespace Jurnal

/-- JavaScript whitespace class `\s` (the code points matched by `\s` in
ECMAScript regular expressions). -/
def isJsSpace (c : Char) : Bool :=
  c == Char.ofNat 9 || c == Char.ofNat 10 || c == Char.ofNat 11 ||
  c == Char.ofNat 12 || c == Char.ofNat 13 || c == ' ' ||
  c == Char.ofNat 160 || c == Char.ofNat 5760 ||
  (decide (Char.ofNat 8192 ≤ c) && decide (c ≤ Char.ofNat 8202)) ||
  c == Char.ofNat 8232 || c == Char.ofNat 8233 || c == Char.ofNat 8239 ||
  c == Char.ofNat 8287 || c == Char.ofNat 12288 || c == Char.ofNat 65279

/-- JavaScript `String.prototype.trim`: remove leading and trailing `\s`
characters. -/
def jsTrim (s : String) : String :=
  ⟨((s.data.dropWhile isJsSpace).reverse.dropWhile isJsSpace).reverse⟩

/-- ASCII uppercase letter, the regex class `[A-Z]`. -/
def isAsciiUpper (c : Char) : Bool := decide ('A' ≤ c ∧ c ≤ 'Z')

/-- ASCII lowercase letter, the regex class `[a-z]`. -/
def isAsciiLower (c : Char) : Bool := decide ('a' ≤ c ∧ c ≤ 'z')

/-- ASCII digit, the regex class `\d` = `[0-9]`. -/
def isAsciiDigit (c : Char) : Bool := decide ('0' ≤ c ∧ c ≤ '9')

/-- ASCII letter, the regex class `[a-zA-Z]`. -/
def isAsciiLetter (c : Char) : Bool := isAsciiLower c || isAsciiUpper c

/-- Character allowed after the first character of a username, the regex
class `[a-zA-Z0-9_]`. -/
def isUsernameTailChar (c : Char) : Bool :=
  isAsciiLetter c || isAsciiDigit c || c == '_'

/-- The special-character set of `validateStrongPassword`, the regex class
written in the source as a bracket expression containing
`!@#$%^&*()_+-=[]` then brace, brace, `;`, apostrophe, `:`, double quote,
backslash, `|,.<>/?` (30 characters).  The characters that the task of
quoting makes awkward are given by code point: 123 and 125 are the braces,
39 the apostrophe, 34 the double quote, 92 the backslash. -/
def specialChars : List Char :=
  ['!', '@', '#', '$', '%', '^', '&', '*', '(', ')', '_', '+', '-', '=',
   '[', ']', Char.ofNat 123, Char.ofNat 125, ';', Char.ofNat 39, ':',
   Char.ofNat 34, Char.ofNat 92, '|', ',', '.', '<', '>', '/', '?']

/-- `validateTeacherNIP` (src/register.js lines 18-22):
`/^\d{18}$/.test(nip)` — exactly 18 ASCII digits. -/
def validateTeacherNIP (nip : String) : Bool :=
  nip.data.length == 18 && nip.data.all isAsciiDigit

/-- `validateEmail` (src/register.js lines 24-27, src/unnamed/part_002
lines 63-66): `/^[^\s@]+@[^\s@]+\.[^\s@]+$/.test(email)`.  A string
matches exactly when it splits at its first `@` into a non-empty local
part with no whitespace, followed by a remainder with no whitespace and
no further `@` that contains a dot with at least one character on each
side. -/
def validateEmail (email : String) : Bool :=
  let cs := email.data
  let localPart := cs.takeWhile (fun c => !(c == '@'))
  let domainPart := (cs.dropWhile (fun c => !(c == '@'))).drop 1
  cs.any (fun c => c == '@') &&
  decide (1 ≤ localPart.length) &&
  localPart.all (fun c => !isJsSpace c) &&
  domainPart.all (fun c => !isJsSpace c && !(c == '@')) &&
  ((domainPart.drop 1).dropLast.any (fun c => c == '.'))

/-- The four individual password-strength requirements reported by
`validateStrongPassword`. -/
structure PasswordRequirements where
  uppercase : Bool
  lowercase : Bool
  number : Bool
  special : Bool
deriving DecidableEq, Repr

/-- Return value of `validateStrongPassword`. -/
structure PasswordCheck where
  isStrong : Bool
  requirements : PasswordRequirements
deriving DecidableEq, Repr

/-- `validateStrongPassword` (src/register.js lines 29-45): presence of an
uppercase letter, a lowercase letter, a digit, and a special character;
`isStrong` iff all four hold. -/
def validateStrongPassword (password : String) : PasswordCheck :=
  let hasUppercase := password.data.any isAsciiUpper
  let hasLowercase := password.data.any isAsciiLower
  let hasNumber := password.data.any isAsciiDigit
  let hasSpecial := password.data.any (fun c => specialChars.contains c)
  { isStrong := hasUppercase && hasLowercase && hasNumber && hasSpecial,
    requirements :=
      { uppercase := hasUppercase, lowercase := hasLowercase,
        number := hasNumber, special := hasSpecial } }

/-- `validateUsername` (src/register.js lines 47-51):
`/^[a-zA-Z][a-zA-Z0-9_]{2,19}$/.test(username)` — 3 to 20 characters,
first a letter, the rest letters, digits or underscore. -/
def validateUsername (username : String) : Bool :=
  match username.data with
  | [] => false
  | c :: rest =>
      isAsciiLetter c && rest.all isUsernameTailChar &&
      decide (2 ≤ rest.length) && decide (rest.length ≤ 19)

/-- `VALID_SUBJECTS` (src/register.js lines 54-59, src/unnamed/part_002
lines 113-118): the fixed whitelist of teacher subjects. -/
def VALID_SUBJECTS : List String :=
  ["Informatika", "Matematika", "Fisika", "Kimia", "Biologi",
   "Bahasa Indonesia", "Bahasa Inggris", "Sejarah", "Geografi",
   "Seni Budaya", "Pendidikan Jasmani", "Agama Islam", "Agama Kristen",
   "Agama Hindu", "Agama Buddha", "Pendidikan Kewarganegaraan", "Ekonomi"]

/-- `validateTeacherSubject` (src/register.js lines 61-63):
`VALID_SUBJECTS.includes(subject)`. -/
def validateTeacherSubject (subject : String) : Bool :=
  VALID_SUBJECTS.contains subject

/-- `validateTeacherAuthCode` (src/unnamed/part_002 lines 54-56):
`authCode && authCode.trim().length >= 4`, used in boolean position. -/
def validateTeacherAuthCode (authCode : String) : Bool :=
  !(authCode == "") && decide (4 ≤ (jsTrim authCode).data.length)

/-- The registration input object `userData`.  Absent fields are `""`. -/
structure UserData where
  username : String
  password : String
  fullName : String
  role : String
  email : String
  nisn : String
  nip : String
  authCode : String
  mapelMengajar : String
  kelasMengajar : String
deriving DecidableEq, Repr

/-- A JavaScript primitive value appearing in a returned view object. -/
inductive JsValue where
  | num (n : Nat)
  | str (s : String)
deriving DecidableEq, Repr

/-- `hashPassword` (src/register.js lines 4-10): hex-encoded SHA-256 of
the password.  The digest primitive is external to the repository and is
passed in as `sha256hex`. -/
def hashPassword (sha256hex : String → String) (password : String) : String :=
  sha256hex password

/-- `verifyPassword` (src/register.js lines 12-15): recompute the hash of
the candidate password and compare with the stored hash. -/
def verifyPassword (sha256hex : String → String) (password storedHash : String) : Bool :=
  hashPassword sha256hex password == storedHash

namespace Nip

/-- The account record stored by src/register.js `registerUser`
(lines 123-135), field for field. -/
structure Account where
  id : Nat
  username : String
  passwordHash : String
  fullName : String
  email : String
  role : String
  nisn : String
  nip : String
  mapelMengajar : String
  kelasMengajar : String
  createdAt : String
deriving DecidableEq, Repr

/-- The persisted state of the NIP variant: the `registeredUsers` key of
`localStorage`. -/
structure Storage where
  registeredUsers : List Account
deriving DecidableEq, Repr

/-- The missing-requirement list built inside `registerUser`
(src/register.js lines 82-86). -/
def weakPasswordMissing (req : PasswordRequirements) : List String :=
  (if !req.uppercase then ["huruf besar"] else []) ++
  (if !req.lowercase then ["huruf kecil"] else []) ++
  (if !req.number then ["angka"] else []) ++
  (if !req.special then ["karakter khusus (!@#$%^&* dll)"] else [])

/-- The account record constructed by `registerUser`
(src/register.js lines 123-135): `id` is `Date.now()`, optional input
fields default to `""`, `createdAt` is the ISO timestamp. -/
def mkAccount (sha256hex : String → String) (now : Nat) (nowISO : String)
    (d : UserData) : Account :=
  { id := now, username := d.username,
    passwordHash := hashPassword sha256hex d.password,
    fullName := d.fullName, email := d.email, role := d.role,
    nisn := d.nisn, nip := d.nip, mapelMengajar := d.mapelMengajar,
    kelasMengajar := d.kelasMengajar, createdAt := nowISO }

/-- `registerUser` (src/register.js lines 68-142).  The nested
teacher-only block is flattened into guards of the form
`role == "teacher" && ...`, preserving the order of the checks.  Errors
are returned as the thrown message, paired with the unchanged storage;
success returns the new id and the storage with the account appended. -/
def registerUser (sha256hex : String → String) (now : Nat) (nowISO : String)
    (d : UserData) (st : Storage) : Except String Nat × Storage :=
  if d.username == "" || d.password == "" || d.fullName == "" || d.role == "" then
    (.error "All fields are required", st)
  else if !(validateUsername d.username) then
    (.error "Username harus 3-20 karakter, dimulai dengan huruf, hanya alfanumerik & underscore", st)
  else if !(validateStrongPassword d.password).isStrong then
    (.error ("Password harus mengandung: " ++
      String.intercalate ", "
        (weakPasswordMissing (validateStrongPassword d.password).requirements)), st)
  else if (st.registeredUsers.find? (fun u => u.username == d.username)).isSome then
    (.error "Username sudah terdaftar", st)
  else if d.role == "teacher" && (d.nip == "" || !(validateTeacherNIP d.nip)) then
    (.error "NIP harus 18 digit angka", st)
  else if d.role == "teacher" && (st.registeredUsers.find? (fun u => u.nip == d.nip)).isSome then
    (.error "NIP sudah terdaftar", st)
  else if d.role == "teacher" && (d.email == "" || !(validateEmail d.email)) then
    (.error "Format email tidak valid", st)
  else if d.role == "teacher" && (d.mapelMengajar == "" || !(validateTeacherSubject d.mapelMengajar)) then
    (.error ("Mata pelajaran tidak valid. Pilih dari: " ++
      String.intercalate ", " VALID_SUBJECTS), st)
  else
    (.ok now, ⟨st.registeredUsers ++ [mkAccount sha256hex now nowISO d]⟩)

/-- `authenticateUser` (src/register.js lines 149-170): find the account
by username, verify the password, and return the literal view object
(modelled as an ordered field-name/value list) without `passwordHash`.
The storage is returned alongside to record that the function performs no
write. -/
def authenticateUser (sha256hex : String → String) (username password : String)
    (st : Storage) : Option (List (String × JsValue)) × Storage :=
  match st.registeredUsers.find? (fun u => u.username == username) with
  | none => (none, st)
  | some user =>
      if verifyPassword sha256hex password user.passwordHash then
        (some [("id", .num user.id), ("username", .str user.username),
               ("fullName", .str user.fullName), ("email", .str user.email),
               ("role", .str user.role), ("nisn", .str user.nisn),
               ("nip", .str user.nip),
               ("mapelMengajar", .str user.mapelMengajar),
               ("kelasMengajar", .str user.kelasMengajar)], st)
      else (none, st)

/-- `getUserById` (src/register.js lines 172-179): find the account by id
and return all its fields except `passwordHash` (the rest-spread), in the
record's field order. -/
def getUserById (userId : Nat) (st : Storage) :
    Option (List (String × JsValue)) × Storage :=
  match st.registeredUsers.find? (fun u => u.id == userId) with
  | none => (none, st)
  | some user =>
      (some [("id", .num user.id), ("username", .str user.username),
             ("fullName", .str user.fullName), ("email", .str user.email),
             ("role", .str user.role), ("nisn", .str user.nisn),
             ("nip", .str user.nip),
             ("mapelMengajar", .str user.mapelMengajar),
             ("kelasMengajar", .str user.kelasMengajar),
             ("createdAt", .str user.createdAt)], st)

/-- Spec-side definition, following the wording of §4.5 of the
specification: the error message of the first failing check, in the
specified order (required fields, username shape, password strength,
duplicate username, then for teachers: identifier format, identifier
uniqueness, email, subject); `none` when every check passes. -/
def specFirstRegistrationError (d : UserData) (users : List Account) : Option String :=
  if d.username == "" || d.password == "" || d.fullName == "" || d.role == "" then
    some "All fields are required"
  else if !(validateUsername d.username) then
    some "Username harus 3-20 karakter, dimulai dengan huruf, hanya alfanumerik & underscore"
  else if !(validateStrongPassword d.password).isStrong then
    some ("Password harus mengandung: " ++
      String.intercalate ", "
        (weakPasswordMissing (validateStrongPassword d.password).requirements))
  else if (users.find? (fun u => u.username == d.username)).isSome then
    some "Username sudah terdaftar"
  else if d.role == "teacher" && (d.nip == "" || !(validateTeacherNIP d.nip)) then
    some "NIP harus 18 digit angka"
  else if d.role == "teacher" && (users.find? (fun u => u.nip == d.nip)).isSome then
    some "NIP sudah terdaftar"
  else if d.role == "teacher" && (d.email == "" || !(validateEmail d.email)) then
    some "Format email tidak valid"
  else if d.role == "teacher" && (d.mapelMengajar == "" || !(validateTeacherSubject d.mapelMengajar)) then
    some ("Mata pelajaran tidak valid. Pilih dari: " ++
      String.intercalate ", " VALID_SUBJECTS)
  else
    none

end Nip

namespace Code

/-- The account record stored by src/unnamed/part_002 `registerUser`
(lines 242-254): an `authCode` field replaces the NIP variant's `nip`. -/
structure Account where
  id : Nat
  username : String
  passwordHash : String
  fullName : String
  email : String
  role : String
  nisn : String
  authCode : String
  mapelMengajar : String
  kelasMengajar : String
  createdAt : String
deriving DecidableEq, Repr

/-- An auth-code registry entry (src/unnamed/part_002 lines 154-161). -/
structure AuthCodeEntry where
  code : String
  used : Bool
  createdBy : String
  createdAt : String
  usedBy : Option Nat
  usedAt : Option String
deriving DecidableEq, Repr

/-- The persisted state of the auth-code variant: the `registeredUsers`
and `authCodes` keys of `localStorage`. -/
structure Storage where
  registeredUsers : List Account
  authCodes : List AuthCodeEntry
deriving DecidableEq, Repr

/-- `createAuthCode` (src/unnamed/part_002 lines 147-165): reject when an
entry whose stored code equals the given (untrimmed) code exists,
otherwise append an entry whose stored code is the trimmed code. -/
def createAuthCode (nowISO : String) (code createdBy : String) (st : Storage) :
    Except String AuthCodeEntry × Storage :=
  if (st.authCodes.find? (fun c => c.code == code)).isSome then
    (.error "Kode autentikasi sudah ada", st)
  else
    let entry : AuthCodeEntry :=
      { code := jsTrim code, used := false, createdBy := createdBy,
        createdAt := nowISO, usedBy := none, usedAt := none }
    (.ok entry, { st with authCodes := st.authCodes ++ [entry] })

/-- In-place mutation of the first entry whose code matches, as performed
by `markAuthCodeUsed` on the entry returned by `find`. -/
def markFirst (code : String) (userId : Nat) (usedAtISO : String) :
    List AuthCodeEntry → List AuthCodeEntry
  | [] => []
  | e :: rest =>
      if e.code == code then
        { e with used := true, usedBy := some userId, usedAt := some usedAtISO } :: rest
      else e :: markFirst code userId usedAtISO rest

/-- `markAuthCodeUsed` (src/unnamed/part_002 lines 168-177): find the
entry (throwing `CodeNotFound` when absent, with no write), set
`used`, `usedBy`, `usedAt` on it, and save the list. -/
def markAuthCodeUsed (usedAtISO : String) (code : String) (userId : Nat)
    (st : Storage) : Except String AuthCodeEntry × Storage :=
  match st.authCodes.find? (fun c => c.code == code) with
  | none => (.error "Kode autentikasi tidak ditemukan", st)
  | some e =>
      (.ok { e with used := true, usedBy := some userId, usedAt := some usedAtISO },
       { st with authCodes := markFirst code userId usedAtISO st.authCodes })

/-- `isAuthCodeValid` (src/unnamed/part_002 lines 180-184): true iff an
entry with this code exists and is not yet used. -/
def isAuthCodeValid (code : String) (st : Storage) : Bool :=
  match st.authCodes.find? (fun c => c.code == code) with
  | none => false
  | some e => !e.used

/-- The missing-requirement list built inside `registerUser`
(src/unnamed/part_002 lines 201-205). -/
def weakPasswordMissing (req : PasswordRequirements) : List String :=
  (if !req.uppercase then ["huruf BESAR"] else []) ++
  (if !req.lowercase then ["huruf kecil"] else []) ++
  (if !req.number then ["angka"] else []) ++
  (if !req.special then ["simbol rahasia (!@#$%...)"] else [])

/-- The account record constructed by `registerUser`
(src/unnamed/part_002 lines 242-254). -/
def mkAccount (sha256hex : String → String) (now : Nat) (nowISO : String)
    (d : UserData) : Account :=
  { id := now, username := d.username,
    passwordHash := hashPassword sha256hex d.password,
    fullName := d.fullName, email := d.email, role := d.role,
    nisn := d.nisn, authCode := d.authCode,
    mapelMengajar := d.mapelMengajar, kelasMengajar := d.kelasMengajar,
    createdAt := nowISO }

/-- `registerUser` (src/unnamed/part_002 lines 187-271).  Same flattening
as in the NIP variant; on success, for a teacher with a (truthy) auth
code, `markAuthCodeUsed` is invoked and any failure of it is swallowed
(the `try`/`catch` that logs and continues), keeping the storage produced
before the failed call. -/
def registerUser (sha256hex : String → String) (now : Nat)
    (nowISO usedAtISO : String) (d : UserData) (st : Storage) :
    Except String Nat × Storage :=
  if d.username == "" || d.password == "" || d.fullName == "" || d.role == "" then
    (.error "Semua bidang harus diisi — jangan biarkan kolom kosong seperti hati tanpa kopi.", st)
  else if !(validateUsername d.username) then
    (.error "Username harus 3-20 karakter, mulai huruf; boleh angka & underscore — pilih yang unik dan mudah diingat.", st)
  else if !(validateStrongPassword d.password).isStrong then
    (.error ("Password lemah — tambahkan: " ++
      String.intercalate ", "
        (weakPasswordMissing (validateStrongPassword d.password).requirements) ++
      ". (Jangan pakai \x27password123\x27 ya.)"), st)
  else if (st.registeredUsers.find? (fun u => u.username == d.username)).isSome then
    (.error "Nama pengguna sudah terdaftar — coba variasi lain.", st)
  else if d.role == "teacher" && (d.authCode == "" || !(validateTeacherAuthCode d.authCode)) then
    (.error "Kode autentikasi bermasalah — minimal 4 karakter. Cek kembali kode dari admin.", st)
  else if d.role == "teacher" && !(isAuthCodeValid d.authCode st) then
    (.error "Kode autentikasi tidak valid atau sudah dipakai. Minta kode baru ke admin.", st)
  else if d.role == "teacher" && (d.email == "" || !(validateEmail d.email)) then
    (.error "Format email tidak valid — contoh yang benar: nama@sekolah.id", st)
  else if d.role == "teacher" && (d.mapelMengajar == "" || !(validateTeacherSubject d.mapelMengajar)) then
    (.error ("Mata pelajaran tidak valid. Pilih dari daftar resmi: " ++
      String.intercalate ", " VALID_SUBJECTS ++ "."), st)
  else
    let newUser := mkAccount sha256hex now nowISO d
    let st1 : Storage := { st with registeredUsers := st.registeredUsers ++ [newUser] }
    if d.role == "teacher" && !(d.authCode == "") then
      (.ok newUser.id, (markAuthCodeUsed usedAtISO d.authCode newUser.id st1).2)
    else
      (.ok newUser.id, st1)

/-- `authenticateUser` (src/unnamed/part_002 lines 280-301): as in the
NIP variant, with the `authCode` field in place of `nip`. -/
def authenticateUser (sha256hex : String → String) (username password : String)
    (st : Storage) : Option (List (String × JsValue)) × Storage :=
  match st.registeredUsers.find? (fun u => u.username == username) with
  | none => (none, st)
  | some user =>
      if verifyPassword sha256hex password user.passwordHash then
        (some [("id", .num user.id), ("username", .str user.username),
               ("fullName", .str user.fullName), ("email", .str user.email),
               ("role", .str user.role), ("nisn", .str user.nisn),
               ("authCode", .str user.authCode),
               ("mapelMengajar", .str user.mapelMengajar),
               ("kelasMengajar", .str user.kelasMengajar)], st)
      else (none, st)

/-- `getUserById` (src/unnamed/part_002 lines 304-311). -/
def getUserById (userId : Nat) (st : Storage) :
    Option (List (String × JsValue)) × Storage :=
  match st.registeredUsers.find? (fun u => u.id == userId) with
  | none => (none, st)
  | some user =>
      (some [("id", .num user.id), ("username", .str user.username),
             ("fullName", .str user.fullName), ("email", .str user.email),
             ("role", .str user.role), ("nisn", .str user.nisn),
             ("authCode", .str user.authCode),
             ("mapelMengajar", .str user.mapelMengajar),
             ("kelasMengajar", .str user.kelasMengajar),
             ("createdAt", .str user.createdAt)], st)

/-- Spec-side definition, following the wording of §4.5 for the code
policy: the error message of the first failing check in the specified
order; `none` when every check passes. -/
def specFirstRegistrationError (d : UserData) (st : Storage) : Option String :=
  if d.username == "" || d.password == "" || d.fullName == "" || d.role == "" then
    some "Semua bidang harus diisi — jangan biarkan kolom kosong seperti hati tanpa kopi."
  else if !(validateUsername d.username) then
    some "Username harus 3-20 karakter, mulai huruf; boleh angka & underscore — pilih yang unik dan mudah diingat."
  else if !(validateStrongPassword d.password).isStrong then
    some ("Password lemah — tambahkan: " ++
      String.intercalate ", "
        (weakPasswordMissing (validateStrongPassword d.password).requirements) ++
      ". (Jangan pakai \x27password123\x27 ya.)")
  else if (st.registeredUsers.find? (fun u => u.username == d.username)).isSome then
    some "Nama pengguna sudah terdaftar — coba variasi lain."
  else if d.role == "teacher" && (d.authCode == "" || !(validateTeacherAuthCode d.authCode)) then
    some "Kode autentikasi bermasalah — minimal 4 karakter. Cek kembali kode dari admin."
  else if d.role == "teacher" && !(isAuthCodeValid d.authCode st) then
    some "Kode autentikasi tidak valid atau sudah dipakai. Minta kode baru ke admin."
  else if d.role == "teacher" && (d.email == "" || !(validateEmail d.email)) then
    some "Format email tidak valid — contoh yang benar: nama@sekolah.id"
  else if d.role == "teacher" && (d.mapelMengajar == "" || !(validateTeacherSubject d.mapelMengajar)) then
    some ("Mata pelajaran tidak valid. Pilih dari daftar resmi: " ++
      String.intercalate ", " VALID_SUBJECTS ++ ".")
  else
    none

end Code

end Jurnal

open Jurnal

/-- Sample valid teacher registration input, used by concrete witnesses. -/
def sampleTeacher : UserData :=
  { username := "guru1", password := "Abcd123!", fullName := "Guru Satu",
    role := "teacher", email := "guru@sekolah.id", nisn := "",
    nip := "123456789012345678", authCode := "GURU2025",
    mapelMengajar := "Informatika", kelasMengajar := "XI" }

/-- Sample student registration input that also supplies every
teacher-only field, used by concrete witnesses and counterexamples. -/
def sampleStudent : UserData :=
  { username := "siswa1", password := "Abcd123!", fullName := "Siswa Satu",
    role := "student", email := "siswa@sekolah.id", nisn := "0012345678",
    nip := "123456789012345678", authCode := "GURU2025",
    mapelMengajar := "Informatika", kelasMengajar := "X" }

/-- A sample stored account of the NIP variant (password hash written for
the identity digest function). -/
def sampleStoredAccount : Nip.Account :=
  { id := 7, username := "guru1", passwordHash := "Abcd123!",
    fullName := "Guru Satu", email := "guru@sekolah.id", role := "teacher",
    nisn := "", nip := "123456789012345678", mapelMengajar := "Informatika",
    kelasMengajar := "XI", createdAt := "2025-01-01T00:00:00.000Z" }

/-- A sample stored account of the auth-code variant. -/
def sampleStoredAccountC : Code.Account :=
  { id := 7, username := "guru1", passwordHash := "Abcd123!",
    fullName := "Guru Satu", email := "guru@sekolah.id", role := "teacher",
    nisn := "", authCode := "GURU2025", mapelMengajar := "Informatika",
    kelasMengajar := "XI", createdAt := "2025-01-01T00:00:00.000Z" }

/-- The auth-code entry produced by issuing "GURU2025" (shorthand used in
the single-use scenario below). -/
def issuedGuruEntry (iso0 : String) : Code.AuthCodeEntry :=
  { code := "GURU2025", used := false, createdBy := "admin",
    createdAt := iso0, usedBy := none, usedAt := none }

/-- The same entry after being consumed by the account registered at
timestamp `now1` (shorthand used in the single-use scenario below). -/
def usedGuruEntry (iso0 used1 : String) (now1 : Nat) : Code.AuthCodeEntry :=
  { code := "GURU2025", used := true, createdBy := "admin",
    createdAt := iso0, usedBy := some now1, usedAt := some used1 }

/-- `registerUser` of the NIP variant refines the specification's check
sequence: the result is exactly determined by the first failing check, and
the storage is written only when all checks pass. -/
theorem nipRegisterUser_eq (sha256hex : String → String) (now : Nat) (nowISO : String)
    (d : UserData) (st : Nip.Storage) :
    Nip.registerUser sha256hex now nowISO d st =
      match Nip.specFirstRegistrationError d st.registeredUsers with
      | some e => (.error e, st)
      | none => (.ok now, ⟨st.registeredUsers ++ [Nip.mkAccount sha256hex now nowISO d]⟩) := by
  unfold Nip.registerUser Nip.specFirstRegistrationError
  repeat' split
  all_goals simp_all

/-- `registerUser` of the auth-code variant refines the specification's
check sequence; on success, a teacher's code is marked used, any failure
of the marking step being swallowed. -/
theorem codeRegisterUser_eq (sha256hex : String → String) (now : Nat)
    (nowISO usedAtISO : String) (d : UserData) (st : Code.Storage) :
    Code.registerUser sha256hex now nowISO usedAtISO d st =
      match Code.specFirstRegistrationError d st with
      | some e => (.error e, st)
      | none =>
          let newUser := Code.mkAccount sha256hex now nowISO d
          let st1 : Code.Storage := { st with registeredUsers := st.registeredUsers ++ [newUser] }
          if d.role == "teacher" && !(d.authCode == "") then
            (.ok newUser.id, (Code.markAuthCodeUsed usedAtISO d.authCode newUser.id st1).2)
          else
            (.ok newUser.id, st1) := by
  unfold Code.registerUser Code.specFirstRegistrationError
  repeat' split
  all_goals simp_all

/-- A registration input satisfying every gate of the NIP variant makes
the check sequence report no error. -/
theorem nipSpecError_none_of_valid (d : UserData) (users : List Nip.Account)
    (h1 : d.username ≠ "") (h2 : d.password ≠ "") (h3 : d.fullName ≠ "") (h4 : d.role ≠ "")
    (h5 : validateUsername d.username = true)
    (h6 : (validateStrongPassword d.password).isStrong = true)
    (h7 : ∀ u ∈ users, u.username ≠ d.username)
    (h8 : d.role = "teacher" →
      d.nip ≠ "" ∧ validateTeacherNIP d.nip = true ∧
      (∀ u ∈ users, u.nip ≠ d.nip) ∧
      d.email ≠ "" ∧ validateEmail d.email = true ∧
      d.mapelMengajar ≠ "" ∧ validateTeacherSubject d.mapelMengajar = true) :
    Nip.specFirstRegistrationError d users = none := by
  have hfindU : users.find? (fun u => u.username == d.username) = none :=
    List.find?_eq_none.mpr (fun u hu => by simpa using h7 u hu)
  unfold Nip.specFirstRegistrationError
  by_cases hrole : d.role = "teacher"
  · obtain ⟨n1, n2, n3, n4, n5, n6, n7⟩ := h8 hrole
    have hfindN : users.find? (fun u => u.nip == d.nip) = none :=
      List.find?_eq_none.mpr (fun u hu => by simpa using n3 u hu)
    simp [h1, h2, h3, h4, h5, h6, hfindU, hfindN, n1, n2, n4, n5, n6, n7]
  · simp [h1, h2, h3, h4, h5, h6, hfindU, hrole]

/-- A registration input satisfying every gate of the auth-code variant
makes the check sequence report no error. -/
theorem codeSpecError_none_of_valid (d : UserData) (st : Code.Storage)
    (h1 : d.username ≠ "") (h2 : d.password ≠ "") (h3 : d.fullName ≠ "") (h4 : d.role ≠ "")
    (h5 : validateUsername d.username = true)
    (h6 : (validateStrongPassword d.password).isStrong = true)
    (h7 : ∀ u ∈ st.registeredUsers, u.username ≠ d.username)
    (h8 : d.role = "teacher" →
      d.authCode ≠ "" ∧ validateTeacherAuthCode d.authCode = true ∧
      Code.isAuthCodeValid d.authCode st = true ∧
      d.email ≠ "" ∧ validateEmail d.email = true ∧
      d.mapelMengajar ≠ "" ∧ validateTeacherSubject d.mapelMengajar = true) :
    Code.specFirstRegistrationError d st = none := by
  have hfindU : st.registeredUsers.find? (fun u => u.username == d.username) = none :=
    List.find?_eq_none.mpr (fun u hu => by simpa using h7 u hu)
  unfold Code.specFirstRegistrationError
  by_cases hrole : d.role = "teacher"
  · obtain ⟨n1, n2, n3, n4, n5, n6, n7⟩ := h8 hrole
    simp [h1, h2, h3, h4, h5, h6, hfindU, n1, n2, n3, n4, n5, n6, n7]
  · simp [h1, h2, h3, h4, h5, h6, hfindU, hrole]

/-- If the NIP-variant check sequence reports no error, the username was
not yet registered. -/
theorem nipSpecError_none_find_username (d : UserData) (users : List Nip.Account)
    (h : Nip.specFirstRegistrationError d users = none) :
    users.find? (fun u => u.username == d.username) = none := by
  unfold Nip.specFirstRegistrationError at h
  repeat' split at h
  all_goals simp_all

/-- If the auth-code-variant check sequence reports no error, the username
was not yet registered. -/
theorem codeSpecError_none_find_username (d : UserData) (st : Code.Storage)
    (h : Code.specFirstRegistrationError d st = none) :
    st.registeredUsers.find? (fun u => u.username == d.username) = none := by
  unfold Code.specFirstRegistrationError at h
  repeat' split at h
  all_goals simp_all

/-- `markAuthCodeUsed` never touches the account list. -/
theorem markAuthCodeUsed_registeredUsers (usedAtISO code : String) (userId : Nat)
    (st : Code.Storage) :
    ((Code.markAuthCodeUsed usedAtISO code userId st).2).registeredUsers =
      st.registeredUsers := by
  unfold Code.markAuthCodeUsed
  split <;> rfl

/-- Marking the first matching entry of `l ++ [e]` when nothing in `l`
matches updates exactly the final entry. -/
theorem markFirst_append_no_match (code : String) (userId : Nat) (usedAtISO : String)
    (l : List Code.AuthCodeEntry) (e : Code.AuthCodeEntry)
    (hl : ∀ c ∈ l, c.code ≠ code) (he : e.code = code) :
    Code.markFirst code userId usedAtISO (l ++ [e]) =
      l ++ [{ e with used := true, usedBy := some userId, usedAt := some usedAtISO }] := by
  induction l with
  | nil => simp [Code.markFirst, he]
  | cons a as ih =>
      have ha : a.code ≠ code := hl a (by simp)
      simp only [List.cons_append, Code.markFirst, beq_eq_false_iff_ne, ha, if_neg]
      rw [if_neg (by simpa using ha)]
      simp [ih (fun c hc => hl c (by simp [hc]))]

/-- `markAuthCodeUsed` on a registry whose only entry for the code is the
final one: the call succeeds and updates exactly that entry. -/
theorem markAuthCodeUsed_fresh_append (usedAtISO code : String) (userId : Nat)
    (users : List Code.Account) (l : List Code.AuthCodeEntry) (e : Code.AuthCodeEntry)
    (hl : ∀ c ∈ l, c.code ≠ code) (he : e.code = code) :
    Code.markAuthCodeUsed usedAtISO code userId ⟨users, l ++ [e]⟩ =
      (.ok { e with used := true, usedBy := some userId, usedAt := some usedAtISO },
       ⟨users, l ++ [{ e with used := true, usedBy := some userId, usedAt := some usedAtISO }]⟩) := by
  have hfindnone : l.find? (fun c => c.code == code) = none :=
    List.find?_eq_none.mpr (fun c hc => by simpa using hl c hc)
  have hfind : (l ++ [e]).find? (fun c => c.code == code) = some e := by
    rw [List.find?_append, hfindnone]
    simp [he]
  unfold Code.markAuthCodeUsed
  rw [show (⟨users, l ++ [e]⟩ : Code.Storage).authCodes = l ++ [e] from rfl]
  rw [hfind, markFirst_append_no_match code userId usedAtISO l e hl he]

/-- A string passing the 18-digit NIP test is non-empty. -/
theorem validateTeacherNIP_ne_empty (s : String) (h : validateTeacherNIP s = true) :
    s ≠ "" := by
  intro hs
  rw [hs] at h
  exact absurd h (by decide)

/-- C10: `authenticateUser` and `getUserById` are pure lookups: in both
variants the storage coming out of the call equals the storage going in,
whether the lookup succeeds or returns null. -/
theorem c10_lookups_leave_state_unchanged (sha256hex : String → String)
    (username password : String) (userId : Nat)
    (stN : Nip.Storage) (stC : Code.Storage) :
    (Nip.authenticateUser sha256hex username password stN).2 = stN ∧
    (Nip.getUserById userId stN).2 = stN ∧
    (Code.authenticateUser sha256hex username password stC).2 = stC ∧
    (Code.getUserById userId stC).2 = stC := by
  refine ⟨?_, ?_, ?_, ?_⟩
  · unfold Nip.authenticateUser
    repeat' split
    all_goals rfl
  · unfold Nip.getUserById
    repeat' split
    all_goals rfl
  · unfold Code.authenticateUser
    repeat' split
    all_goals rfl
  · unfold Code.getUserById
    repeat' split
    all_goals rfl

/-- C7: `validateTeacherNIP` accepts exactly the strings of exactly 18
ASCII digits, so "123456789012345678" passes and "12345" fails — a
teacher registration carrying NIP "12345" fails with the
InvalidTeacherIdentifier message — and a teacher registration whose NIP
equals one already stored fails with the DuplicateTeacherIdentifier
message, the registry unchanged in both cases. -/
theorem c7_nip_policy (sha256hex : String → String) (now : Nat) (nowISO : String)
    (d : UserData) (st : Nip.Storage)
    (h1 : d.username ≠ "") (h2 : d.password ≠ "") (h3 : d.fullName ≠ "")
    (h5 : validateUsername d.username = true)
    (h6 : (validateStrongPassword d.password).isStrong = true)
    (h7 : ∀ u ∈ st.registeredUsers, u.username ≠ d.username)
    (hrole : d.role = "teacher") :
    (∀ s : String, validateTeacherNIP s = true ↔
      (s.data.length = 18 ∧ ∀ c ∈ s.data, '0' ≤ c ∧ c ≤ '9')) ∧
    validateTeacherNIP "123456789012345678" = true ∧
    validateTeacherNIP "12345" = false ∧
    (d.nip = "12345" →
      Nip.registerUser sha256hex now nowISO d st = (.error "NIP harus 18 digit angka", st)) ∧
    (validateTeacherNIP d.nip = true →
      (∃ u ∈ st.registeredUsers, u.nip = d.nip) →
      Nip.registerUser sha256hex now nowISO d st = (.error "NIP sudah terdaftar", st)) := by
  have h4 : d.role ≠ "" := by simp [hrole]
  have hfindU : st.registeredUsers.find? (fun u => u.username == d.username) = none :=
    List.find?_eq_none.mpr (fun u hu => by simpa using h7 u hu)
  refine ⟨?_, by decide, by decide, ?_, ?_⟩
  · intro s
    unfold validateTeacherNIP isAsciiDigit
    simp [List.all_eq_true]
  · intro hnip
    rw [nipRegisterUser_eq]
    have hbadnip : validateTeacherNIP "12345" = false := by decide
    have hspec : Nip.specFirstRegistrationError d st.registeredUsers =
        some "NIP harus 18 digit angka" := by
      unfold Nip.specFirstRegistrationError
      simp [h1, h2, h3, h4, h5, h6, hfindU, hrole, hnip, hbadnip]
    rw [hspec]
  · intro hv hex
    obtain ⟨u, hu, hequ⟩ := hex
    have hne : d.nip ≠ "" := validateTeacherNIP_ne_empty d.nip hv
    have hfindN : (st.registeredUsers.find? (fun u => u.nip == d.nip)).isSome = true :=
      List.find?_isSome.mpr ⟨u, hu, by simp [hequ]⟩
    rw [nipRegisterUser_eq]
    have hspec : Nip.specFirstRegistrationError d st.registeredUsers =
        some "NIP sudah terdaftar" := by
      unfold Nip.specFirstRegistrationError
      simp [h1, h2, h3, h4, h5, h6, hfindU, hrole, hv, hne, hfindN]
    rw [hspec]

/-- C8: `validateTeacherSubject` is case-sensitive membership in the
fixed 17-name whitelist; a teacher registration with subject "Olahraga"
fails with the InvalidSubject message, while one with subject
"Informatika" (all other fields valid) succeeds. -/
theorem c8_subject_whitelist (sha256hex : String → String) (now : Nat) (nowISO : String)
    (d : UserData) (st : Nip.Storage)
    (h1 : d.username ≠ "") (h2 : d.password ≠ "") (h3 : d.fullName ≠ "")
    (h5 : validateUsername d.username = true)
    (h6 : (validateStrongPassword d.password).isStrong = true)
    (h7 : ∀ u ∈ st.registeredUsers, u.username ≠ d.username)
    (hrole : d.role = "teacher")
    (hnip1 : validateTeacherNIP d.nip = true)
    (hnip2 : ∀ u ∈ st.registeredUsers, u.nip ≠ d.nip)
    (hemail1 : d.email ≠ "") (hemail2 : validateEmail d.email = true) :
    (∀ s : String, validateTeacherSubject s = true ↔ s ∈ VALID_SUBJECTS) ∧
    VALID_SUBJECTS.length = 17 ∧
    validateTeacherSubject "Olahraga" = false ∧
    validateTeacherSubject "informatika" = false ∧
    (d.mapelMengajar = "Olahraga" →
      Nip.registerUser sha256hex now nowISO d st =
        (.error ("Mata pelajaran tidak valid. Pilih dari: " ++
          String.intercalate ", " VALID_SUBJECTS), st)) ∧
    (d.mapelMengajar = "Informatika" →
      Nip.registerUser sha256hex now nowISO d st =
        (.ok now, ⟨st.registeredUsers ++ [Nip.mkAccount sha256hex now nowISO d]⟩)) := by
  have h4 : d.role ≠ "" := by simp [hrole]
  have hfindU : st.registeredUsers.find? (fun u => u.username == d.username) = none :=
    List.find?_eq_none.mpr (fun u hu => by simpa using h7 u hu)
  have hne : d.nip ≠ "" := validateTeacherNIP_ne_empty d.nip hnip1
  have hfindN : st.registeredUsers.find? (fun u => u.nip == d.nip) = none :=
    List.find?_eq_none.mpr (fun u hu => by simpa using hnip2 u hu)
  refine ⟨?_, by decide, by decide, by decide, ?_, ?_⟩
  · intro s
    simp [validateTeacherSubject]
  · intro hsub
    rw [nipRegisterUser_eq]
    have hbad : validateTeacherSubject d.mapelMengajar = false := by
      rw [hsub]; decide
    have hspec : Nip.specFirstRegistrationError d st.registeredUsers =
        some ("Mata pelajaran tidak valid. Pilih dari: " ++
          String.intercalate ", " VALID_SUBJECTS) := by
      unfold Nip.specFirstRegistrationError
      simp [h1, h2, h3, h4, h5, h6, hfindU, hrole, hnip1, hne, hfindN, hemail1, hemail2, hbad]
    rw [hspec]
  · intro hsub
    rw [nipRegisterUser_eq]
    have hspec : Nip.specFirstRegistrationError d st.registeredUsers = none :=
      nipSpecError_none_of_valid d st.registeredUsers h1 h2 h3 h4 h5 h6 h7
        (fun _ => ⟨hne, hnip1, hnip2, hemail1, hemail2,
          by simp [hsub], by rw [hsub]; decide⟩)
    rw [hspec]

/-- C4 counterexample: authenticating against a stored account succeeds
but returns a view carrying no `createdAt` key at all, although the
stored account does carry a `createdAt` value — refuting, at this
concrete input, the claim that the view contains every Account field
except the password digest. -/
theorem c4_counterexample_view_omits_createdAt :
    ((Nip.authenticateUser (fun s => s) "guru1" "Abcd123!" ⟨[sampleStoredAccount]⟩).1.map
      (fun view => List.lookup "createdAt" view)) = some none ∧
    sampleStoredAccount.createdAt = "2025-01-01T00:00:00.000Z" :=
  ⟨rfl, rfl⟩

/-- C4 (amended): for an account found by username with the correct
password, `authenticateUser` returns the view holding every Account field
except `passwordHash` and except `createdAt`, each equal to the stored
record's value — in both variants. -/
theorem c4_view_fields_amended (sha256hex : String → String) (uname pwd : String)
    (stN : Nip.Storage) (stC : Code.Storage) (accN : Nip.Account) (accC : Code.Account)
    (hN : stN.registeredUsers.find? (fun u => u.username == uname) = some accN)
    (hvN : verifyPassword sha256hex pwd accN.passwordHash = true)
    (hC : stC.registeredUsers.find? (fun u => u.username == uname) = some accC)
    (hvC : verifyPassword sha256hex pwd accC.passwordHash = true) :
    (Nip.authenticateUser sha256hex uname pwd stN).1 =
      some [("id", .num accN.id), ("username", .str accN.username),
            ("fullName", .str accN.fullName), ("email", .str accN.email),
            ("role", .str accN.role), ("nisn", .str accN.nisn),
            ("nip", .str accN.nip), ("mapelMengajar", .str accN.mapelMengajar),
            ("kelasMengajar", .str accN.kelasMengajar)] ∧
    List.lookup "passwordHash"
      [("id", JsValue.num accN.id), ("username", JsValue.str accN.username),
       ("fullName", JsValue.str accN.fullName), ("email", JsValue.str accN.email),
       ("role", JsValue.str accN.role), ("nisn", JsValue.str accN.nisn),
       ("nip", JsValue.str accN.nip), ("mapelMengajar", JsValue.str accN.mapelMengajar),
       ("kelasMengajar", JsValue.str accN.kelasMengajar)] = none ∧
    List.lookup "createdAt"
      [("id", JsValue.num accN.id), ("username", JsValue.str accN.username),
       ("fullName", JsValue.str accN.fullName), ("email", JsValue.str accN.email),
       ("role", JsValue.str accN.role), ("nisn", JsValue.str accN.nisn),
       ("nip", JsValue.str accN.nip), ("mapelMengajar", JsValue.str accN.mapelMengajar),
       ("kelasMengajar", JsValue.str accN.kelasMengajar)] = none ∧
    (Code.authenticateUser sha256hex uname pwd stC).1 =
      some [("id", .num accC.id), ("username", .str accC.username),
            ("fullName", .str accC.fullName), ("email", .str accC.email),
            ("role", .str accC.role), ("nisn", .str accC.nisn),
            ("authCode", .str accC.authCode), ("mapelMengajar", .str accC.mapelMengajar),
            ("kelasMengajar", .str accC.kelasMengajar)] ∧
    List.lookup "passwordHash"
      [("id", JsValue.num accC.id), ("username", JsValue.str accC.username),
       ("fullName", JsValue.str accC.fullName), ("email", JsValue.str accC.email),
       ("role", JsValue.str accC.role), ("nisn", JsValue.str accC.nisn),
       ("authCode", JsValue.str accC.authCode), ("mapelMengajar", JsValue.str accC.mapelMengajar),
       ("kelasMengajar", JsValue.str accC.kelasMengajar)] = none ∧
    List.lookup "createdAt"
      [("id", JsValue.num accC.id), ("username", JsValue.str accC.username),
       ("fullName", JsValue.str accC.fullName), ("email", JsValue.str accC.email),
       ("role", JsValue.str accC.role), ("nisn", JsValue.str accC.nisn),
       ("authCode", JsValue.str accC.authCode), ("mapelMengajar", JsValue.str accC.mapelMengajar),
       ("kelasMengajar", JsValue.str accC.kelasMengajar)] = none := by
  refine ⟨?_, by rfl, by rfl, ?_, by rfl, by rfl⟩
  · simp [Nip.authenticateUser, hN, hvN]
  · simp [Code.authenticateUser, hC, hvC]

/-- C4 amended-claim witness at a concrete state: the view of the sample
stored teacher account, in both variants. -/
theorem c4_view_fields_amended_witness :
    (Nip.authenticateUser (fun s => s) "guru1" "Abcd123!" ⟨[sampleStoredAccount]⟩).1 =
      some [("id", .num 7), ("username", .str "guru1"), ("fullName", .str "Guru Satu"),
            ("email", .str "guru@sekolah.id"), ("role", .str "teacher"), ("nisn", .str ""),
            ("nip", .str "123456789012345678"), ("mapelMengajar", .str "Informatika"),
            ("kelasMengajar", .str "XI")] ∧
    (Code.authenticateUser (fun s => s) "guru1" "Abcd123!" ⟨[sampleStoredAccountC], []⟩).1 =
      some [("id", .num 7), ("username", .str "guru1"), ("fullName", .str "Guru Satu"),
            ("email", .str "guru@sekolah.id"), ("role", .str "teacher"), ("nisn", .str ""),
            ("authCode", .str "GURU2025"), ("mapelMengajar", .str "Informatika"),
            ("kelasMengajar", .str "XI")] := by
  have h := c4_view_fields_amended (fun s => s) "guru1" "Abcd123!"
    ⟨[sampleStoredAccount]⟩ ⟨[sampleStoredAccountC], []⟩
    sampleStoredAccount sampleStoredAccountC
    (by decide) (by decide) (by decide) (by decide)
  exact ⟨h.1, h.2.2.2.1⟩

/-- C9 counterexample: a successful student registration stores the
supplied teacher-only fields (nip, email, mapelMengajar, kelasMengajar)
verbatim instead of leaving them empty — refuting the claim that
fields of the non-matching role are ignored. -/
theorem c9_counterexample_role_fields_copied :
    (Nip.registerUser (fun s => s) 1 "T" sampleStudent ⟨[]⟩).1 = .ok 1 ∧
    ((Nip.registerUser (fun s => s) 1 "T" sampleStudent ⟨[]⟩).2.registeredUsers.map
      (fun u => (u.role, u.nip, u.email, u.mapelMengajar, u.kelasMengajar))) =
      [("student", "123456789012345678", "siswa@sekolah.id", "Informatika", "X")] :=
  ⟨rfl, rfl⟩

/-- C9 (amended): registration copies every optional input field into the
stored record verbatim regardless of role (an absent field, modelled "",
stays empty); the record appended by a successful registration carries
the input's email, nisn, nip (resp. authCode), mapelMengajar and
kelasMengajar, in both variants. -/
theorem c9_optional_fields_copied (sha256hex : String → String) (now : Nat)
    (nowISO usedAtISO : String) (d : UserData)
    (stN : Nip.Storage) (stC : Code.Storage) (iN iC : Nat)
    (hN : (Nip.registerUser sha256hex now nowISO d stN).1 = .ok iN)
    (hC : (Code.registerUser sha256hex now nowISO usedAtISO d stC).1 = .ok iC) :
    ((Nip.registerUser sha256hex now nowISO d stN).2).registeredUsers.getLast? =
      some (Nip.mkAccount sha256hex now nowISO d) ∧
    (Nip.mkAccount sha256hex now nowISO d).email = d.email ∧
    (Nip.mkAccount sha256hex now nowISO d).nisn = d.nisn ∧
    (Nip.mkAccount sha256hex now nowISO d).nip = d.nip ∧
    (Nip.mkAccount sha256hex now nowISO d).mapelMengajar = d.mapelMengajar ∧
    (Nip.mkAccount sha256hex now nowISO d).kelasMengajar = d.kelasMengajar ∧
    ((Code.registerUser sha256hex now nowISO usedAtISO d stC).2).registeredUsers.getLast? =
      some (Code.mkAccount sha256hex now nowISO d) ∧
    (Code.mkAccount sha256hex now nowISO d).email = d.email ∧
    (Code.mkAccount sha256hex now nowISO d).nisn = d.nisn ∧
    (Code.mkAccount sha256hex now nowISO d).authCode = d.authCode ∧
    (Code.mkAccount sha256hex now nowISO d).mapelMengajar = d.mapelMengajar ∧
    (Code.mkAccount sha256hex now nowISO d).kelasMengajar = d.kelasMengajar := by
  refine ⟨?_, rfl, rfl, rfl, rfl, rfl, ?_, rfl, rfl, rfl, rfl, rfl⟩
  · rw [nipRegisterUser_eq] at hN ⊢
    rcases hs : Nip.specFirstRegistrationError d stN.registeredUsers with _ | msg
    · exact List.getLast?_concat stN.registeredUsers
    · rw [hs] at hN
      simp at hN
  · rw [codeRegisterUser_eq] at hC ⊢
    rcases hs : Code.specFirstRegistrationError d stC with _ | msg
    · simp only []
      split
      · rw [markAuthCodeUsed_registeredUsers]
        exact List.getLast?_concat stC.registeredUsers
      · exact List.getLast?_concat stC.registeredUsers
    · rw [hs] at hC
      simp at hC

/-- C9 amended-claim witness: concrete student registrations in both
variants store the teacher-only input fields verbatim. -/
theorem c9_optional_fields_copied_witness :
    ((Nip.registerUser (fun s => s) 1 "T" sampleStudent ⟨[]⟩).2).registeredUsers.getLast? =
      some (Nip.mkAccount (fun s => s) 1 "T" sampleStudent) ∧
    (Nip.mkAccount (fun s => s) 1 "T" sampleStudent).nip = "123456789012345678" ∧
    ((Code.registerUser (fun s => s) 1 "T" "U" sampleStudent ⟨[], []⟩).2).registeredUsers.getLast? =
      some (Code.mkAccount (fun s => s) 1 "T" sampleStudent) ∧
    (Code.mkAccount (fun s => s) 1 "T" sampleStudent).authCode = "GURU2025" := by
  have h := c9_optional_fields_copied (fun s => s) 1 "T" "U" sampleStudent
    ⟨[]⟩ ⟨[], []⟩ 1 1 (by rfl) (by rfl)
  exact ⟨h.1, rfl, h.2.2.2.2.2.2.1, rfl⟩

/-- C6: the duplicate check of `createAuthCode` compares the raw argument
while the stored entry keeps the trimmed code, so issuing "GURU2025" and
then " GURU2025 " (same code with surrounding whitespace) succeeds twice
and stores two entries both holding code "GURU2025": the stored codes are
not pairwise distinct, contradicting the uniqueness the claim (and the
code's own comment) asserts. -/
theorem c6_duplicate_code_stored :
    (Code.createAuthCode "T2" " GURU2025 " "admin"
        (Code.createAuthCode "T1" "GURU2025" "admin" ⟨[], []⟩).2).1 =
      .ok { code := "GURU2025", used := false, createdBy := "admin",
            createdAt := "T2", usedBy := none, usedAt := none } ∧
    ((Code.createAuthCode "T2" " GURU2025 " "admin"
        (Code.createAuthCode "T1" "GURU2025" "admin" ⟨[], []⟩).2).2).authCodes.map
      (fun c => c.code) = ["GURU2025", "GURU2025"] ∧
    ¬ (((Code.createAuthCode "T2" " GURU2025 " "admin"
        (Code.createAuthCode "T1" "GURU2025" "admin" ⟨[], []⟩).2).2).authCodes.map
      (fun c => c.code)).Pairwise (fun a b => a ≠ b) := by
  refine ⟨rfl, rfl, ?_⟩
  intro h
  have h2 : (["GURU2025", "GURU2025"] : List String).Pairwise (fun a b => a ≠ b) := h
  exact List.rel_of_pairwise_cons h2 (List.mem_singleton.mpr rfl) rfl

/-- C1: a valid registration on the NIP variant succeeds, and
authenticating immediately afterwards with the same username and password
returns a non-null view with no passwordHash (nor passwordDigest) field
whose remaining fields equal the registration input (with the fresh id). -/
theorem c1_register_then_authenticate (sha256hex : String → String) (now : Nat)
    (nowISO : String) (d : UserData) (st : Nip.Storage)
    (h1 : d.username ≠ "") (h2 : d.password ≠ "") (h3 : d.fullName ≠ "") (h4 : d.role ≠ "")
    (h5 : validateUsername d.username = true)
    (h6 : (validateStrongPassword d.password).isStrong = true)
    (h7 : ∀ u ∈ st.registeredUsers, u.username ≠ d.username)
    (h8 : d.role = "teacher" →
      d.nip ≠ "" ∧ validateTeacherNIP d.nip = true ∧
      (∀ u ∈ st.registeredUsers, u.nip ≠ d.nip) ∧
      d.email ≠ "" ∧ validateEmail d.email = true ∧
      d.mapelMengajar ≠ "" ∧ validateTeacherSubject d.mapelMengajar = true) :
    Nip.registerUser sha256hex now nowISO d st =
      (.ok now, ⟨st.registeredUsers ++ [Nip.mkAccount sha256hex now nowISO d]⟩) ∧
    (Nip.authenticateUser sha256hex d.username d.password
        (Nip.registerUser sha256hex now nowISO d st).2).1 =
      some [("id", .num now), ("username", .str d.username),
            ("fullName", .str d.fullName), ("email", .str d.email),
            ("role", .str d.role), ("nisn", .str d.nisn), ("nip", .str d.nip),
            ("mapelMengajar", .str d.mapelMengajar),
            ("kelasMengajar", .str d.kelasMengajar)] ∧
    List.lookup "passwordHash"
      [("id", JsValue.num now), ("username", JsValue.str d.username),
       ("fullName", JsValue.str d.fullName), ("email", JsValue.str d.email),
       ("role", JsValue.str d.role), ("nisn", JsValue.str d.nisn),
       ("nip", JsValue.str d.nip), ("mapelMengajar", JsValue.str d.mapelMengajar),
       ("kelasMengajar", JsValue.str d.kelasMengajar)] = none ∧
    List.lookup "passwordDigest"
      [("id", JsValue.num now), ("username", JsValue.str d.username),
       ("fullName", JsValue.str d.fullName), ("email", JsValue.str d.email),
       ("role", JsValue.str d.role), ("nisn", JsValue.str d.nisn),
       ("nip", JsValue.str d.nip), ("mapelMengajar", JsValue.str d.mapelMengajar),
       ("kelasMengajar", JsValue.str d.kelasMengajar)] = none := by
  have hfindU : st.registeredUsers.find? (fun u => u.username == d.username) = none :=
    List.find?_eq_none.mpr (fun u hu => by simpa using h7 u hu)
  have hspec : Nip.specFirstRegistrationError d st.registeredUsers = none :=
    nipSpecError_none_of_valid d st.registeredUsers h1 h2 h3 h4 h5 h6 h7 h8
  have hreg : Nip.registerUser sha256hex now nowISO d st =
      (.ok now, ⟨st.registeredUsers ++ [Nip.mkAccount sha256hex now nowISO d]⟩) := by
    rw [nipRegisterUser_eq, hspec]
  refine ⟨hreg, ?_, by rfl, by rfl⟩
  rw [hreg]
  have hfind2 : (st.registeredUsers ++ [Nip.mkAccount sha256hex now nowISO d]).find?
      (fun u => u.username == d.username) = some (Nip.mkAccount sha256hex now nowISO d) := by
    rw [List.find?_append, hfindU]
    simp [Nip.mkAccount]
  simp [Nip.authenticateUser, hfindU, hfind2, verifyPassword, hashPassword, Nip.mkAccount]

/-- C2: in both variants, when registration throws, the persisted
registries are untouched and the error thrown is the one belonging to the
first failing check in the specified order (required fields, username
shape, password strength, duplicate username, then the teacher-specific
checks). -/
theorem c2_first_failing_check_aborts (sha256hex : String → String) (now : Nat)
    (nowISO usedAtISO : String) (d : UserData)
    (stN : Nip.Storage) (stC : Code.Storage) (e eC : String)
    (hN : (Nip.registerUser sha256hex now nowISO d stN).1 = .error e)
    (hC : (Code.registerUser sha256hex now nowISO usedAtISO d stC).1 = .error eC) :
    (Nip.registerUser sha256hex now nowISO d stN).2 = stN ∧
    Nip.specFirstRegistrationError d stN.registeredUsers = some e ∧
    (Code.registerUser sha256hex now nowISO usedAtISO d stC).2 = stC ∧
    Code.specFirstRegistrationError d stC = some eC := by
  have hNeq := nipRegisterUser_eq sha256hex now nowISO d stN
  have hCeq := codeRegisterUser_eq sha256hex now nowISO usedAtISO d stC
  rcases hsN : Nip.specFirstRegistrationError d stN.registeredUsers with _ | msg
  · rw [hNeq, hsN] at hN
    simp at hN
  · rw [hNeq, hsN] at hN
    simp at hN
    rcases hsC : Code.specFirstRegistrationError d stC with _ | msgC
    · rw [hCeq, hsC] at hC
      simp at hC
      split at hC <;> simp_all
    · rw [hCeq, hsC] at hC
      simp at hC
      rw [hNeq, hsN, hCeq, hsC]
      simp [hN, hC]

/-- C3: in both variants, registering a username that is already present
(with the earlier gates passing) fails with the DuplicateUsername error
leaving the registry unchanged — so a registry holding exactly one
account under that username still holds exactly one — and every
registration, successful or not, preserves pairwise-distinct usernames. -/
theorem c3_duplicate_username (sha256hex : String → String) (now : Nat)
    (nowISO usedAtISO : String) (d : UserData)
    (stN : Nip.Storage) (stC : Code.Storage)
    (h1 : d.username ≠ "") (h2 : d.password ≠ "") (h3 : d.fullName ≠ "") (h4 : d.role ≠ "")
    (h5 : validateUsername d.username = true)
    (h6 : (validateStrongPassword d.password).isStrong = true)
    (hdupN : ∃ u ∈ stN.registeredUsers, u.username = d.username)
    (hdupC : ∃ u ∈ stC.registeredUsers, u.username = d.username) :
    Nip.registerUser sha256hex now nowISO d stN = (.error "Username sudah terdaftar", stN) ∧
    Code.registerUser sha256hex now nowISO usedAtISO d stC =
      (.error "Nama pengguna sudah terdaftar — coba variasi lain.", stC) ∧
    (stN.registeredUsers.countP (fun u => u.username == d.username) = 1 →
      ((Nip.registerUser sha256hex now nowISO d stN).2).registeredUsers.countP
        (fun u => u.username == d.username) = 1) ∧
    (∀ (dA : UserData) (stA : Nip.Storage),
      stA.registeredUsers.Pairwise (fun a b => a.username ≠ b.username) →
      ((Nip.registerUser sha256hex now nowISO dA stA).2).registeredUsers.Pairwise
        (fun a b => a.username ≠ b.username)) ∧
    (∀ (dB : UserData) (stB : Code.Storage),
      stB.registeredUsers.Pairwise (fun a b => a.username ≠ b.username) →
      ((Code.registerUser sha256hex now nowISO usedAtISO dB stB).2).registeredUsers.Pairwise
        (fun a b => a.username ≠ b.username)) := by
  obtain ⟨uN, huN, heqN⟩ := hdupN
  obtain ⟨uC, huC, heqC⟩ := hdupC
  have hfindN : (stN.registeredUsers.find? (fun u => u.username == d.username)).isSome = true :=
    List.find?_isSome.mpr ⟨uN, huN, by simp [heqN]⟩
  have hfindC : (stC.registeredUsers.find? (fun u => u.username == d.username)).isSome = true :=
    List.find?_isSome.mpr ⟨uC, huC, by simp [heqC]⟩
  have herrN : Nip.registerUser sha256hex now nowISO d stN =
      (.error "Username sudah terdaftar", stN) := by
    rw [nipRegisterUser_eq]
    have hspec : Nip.specFirstRegistrationError d stN.registeredUsers =
        some "Username sudah terdaftar" := by
      unfold Nip.specFirstRegistrationError
      simp [h1, h2, h3, h4, h5, h6, hfindN]
    rw [hspec]
  have herrC : Code.registerUser sha256hex now nowISO usedAtISO d stC =
      (.error "Nama pengguna sudah terdaftar — coba variasi lain.", stC) := by
    rw [codeRegisterUser_eq]
    have hspec : Code.specFirstRegistrationError d stC =
        some "Nama pengguna sudah terdaftar — coba variasi lain." := by
      unfold Code.specFirstRegistrationError
      simp [h1, h2, h3, h4, h5, h6, hfindC]
    rw [hspec]
  refine ⟨herrN, herrC, by rw [herrN]; exact id, ?_, ?_⟩
  · intro dA stA hpw
    rw [nipRegisterUser_eq]
    rcases hs : Nip.specFirstRegistrationError dA stA.registeredUsers with _ | msg
    · have hfresh := nipSpecError_none_find_username dA stA.registeredUsers hs
      have hfresh' : ∀ u ∈ stA.registeredUsers, u.username ≠ dA.username := by
        intro u hu
        have := List.find?_eq_none.mp hfresh u hu
        simpa using this
      simp only []
      rw [List.pairwise_append]
      refine ⟨hpw, by simp, ?_⟩
      intro a ha b hb
      simp only [List.mem_singleton] at hb
      subst hb
      simpa [Nip.mkAccount] using hfresh' a ha
    · exact hpw
  · intro dB stB hpw
    rw [codeRegisterUser_eq]
    rcases hs : Code.specFirstRegistrationError dB stB with _ | msg
    · have hfresh := codeSpecError_none_find_username dB stB hs
      have hfresh' : ∀ u ∈ stB.registeredUsers, u.username ≠ dB.username := by
        intro u hu
        have := List.find?_eq_none.mp hfresh u hu
        simpa using this
      simp only []
      have hgoal : (stB.registeredUsers ++
          [Code.mkAccount sha256hex now nowISO dB]).Pairwise
          (fun a b => a.username ≠ b.username) := by
        rw [List.pairwise_append]
        refine ⟨hpw, by simp, ?_⟩
        intro a ha b hb
        simp only [List.mem_singleton] at hb
        subst hb
        simpa [Code.mkAccount] using hfresh' a ha
      split
      · rw [markAuthCodeUsed_registeredUsers]
        exact hgoal
      · exact hgoal
    · exact hpw

/-- C5: after issuing the code "GURU2025", a teacher registration
presenting it (all other fields valid) succeeds and leaves the auth-code
entry marked used with the consuming account recorded, and a second
teacher registration presenting the same code fails with the
IdentifierNotRedeemable message, adding no account and changing no state. -/
theorem c5_auth_code_single_use (sha256hex : String → String) (now1 now2 : Nat)
    (iso0 iso1 used1 iso2 used2 : String) (st : Code.Storage) (d1 d2 : UserData)
    (hcodes : ∀ c ∈ st.authCodes, c.code ≠ "GURU2025")
    (hd1role : d1.role = "teacher") (hd1code : d1.authCode = "GURU2025")
    (hd1u : d1.username ≠ "") (hd1p : d1.password ≠ "") (hd1f : d1.fullName ≠ "")
    (hd1un : validateUsername d1.username = true)
    (hd1ps : (validateStrongPassword d1.password).isStrong = true)
    (hd1fresh : ∀ u ∈ st.registeredUsers, u.username ≠ d1.username)
    (hd1e : d1.email ≠ "") (hd1ev : validateEmail d1.email = true)
    (hd1m : d1.mapelMengajar ≠ "") (hd1mv : validateTeacherSubject d1.mapelMengajar = true)
    (hd2role : d2.role = "teacher") (hd2code : d2.authCode = "GURU2025")
    (hd2u : d2.username ≠ "") (hd2p : d2.password ≠ "") (hd2f : d2.fullName ≠ "")
    (hd2un : validateUsername d2.username = true)
    (hd2ps : (validateStrongPassword d2.password).isStrong = true)
    (hd2fresh : ∀ u ∈ st.registeredUsers, u.username ≠ d2.username)
    (hd2ne : d2.username ≠ d1.username) :
    Code.createAuthCode iso0 "GURU2025" "admin" st =
      (.ok (issuedGuruEntry iso0),
       { st with authCodes := st.authCodes ++ [issuedGuruEntry iso0] }) ∧
    Code.registerUser sha256hex now1 iso1 used1 d1
        { st with authCodes := st.authCodes ++ [issuedGuruEntry iso0] } =
      (.ok now1,
       { registeredUsers := st.registeredUsers ++ [Code.mkAccount sha256hex now1 iso1 d1],
         authCodes := st.authCodes ++ [usedGuruEntry iso0 used1 now1] }) ∧
    (st.authCodes ++ [usedGuruEntry iso0 used1 now1]).find?
        (fun c => c.code == "GURU2025") = some (usedGuruEntry iso0 used1 now1) ∧
    (usedGuruEntry iso0 used1 now1).used = true ∧
    (usedGuruEntry iso0 used1 now1).usedBy = some now1 ∧
    Code.registerUser sha256hex now2 iso2 used2 d2
        { registeredUsers := st.registeredUsers ++ [Code.mkAccount sha256hex now1 iso1 d1],
          authCodes := st.authCodes ++ [usedGuruEntry iso0 used1 now1] } =
      (.error "Kode autentikasi tidak valid atau sudah dipakai. Minta kode baru ke admin.",
       { registeredUsers := st.registeredUsers ++ [Code.mkAccount sha256hex now1 iso1 d1],
         authCodes := st.authCodes ++ [usedGuruEntry iso0 used1 now1] }) := by
  have hvac : validateTeacherAuthCode "GURU2025" = true := by decide
  have htrim : jsTrim "GURU2025" = "GURU2025" := by decide
  have hfind0 : st.authCodes.find? (fun c => c.code == "GURU2025") = none :=
    List.find?_eq_none.mpr (fun c hc => by simpa using hcodes c hc)
  have hcreate : Code.createAuthCode iso0 "GURU2025" "admin" st =
      (.ok (issuedGuruEntry iso0),
       { st with authCodes := st.authCodes ++ [issuedGuruEntry iso0] }) := by
    unfold Code.createAuthCode
    rw [hfind0]
    simp [htrim, issuedGuruEntry]
  have hfindA : (st.authCodes ++ [issuedGuruEntry iso0]).find?
      (fun c => c.code == "GURU2025") = some (issuedGuruEntry iso0) := by
    rw [List.find?_append, hfind0]
    simp [issuedGuruEntry]
  have hvalid1 : Code.isAuthCodeValid d1.authCode
      { st with authCodes := st.authCodes ++ [issuedGuruEntry iso0] } = true := by
    rw [hd1code]
    simp [Code.isAuthCodeValid, hfind0, issuedGuruEntry]
  have hspec1 : Code.specFirstRegistrationError d1
      { st with authCodes := st.authCodes ++ [issuedGuruEntry iso0] } = none :=
    codeSpecError_none_of_valid d1 _ hd1u hd1p hd1f (by simp [hd1role]) hd1un hd1ps
      (fun u hu => hd1fresh u hu)
      (fun _ => ⟨by simp [hd1code], by rw [hd1code]; exact hvac, hvalid1,
        hd1e, hd1ev, hd1m, hd1mv⟩)
  have hcond1 : (d1.role == "teacher" && !(d1.authCode == "")) = true := by
    simp [hd1role, hd1code]
  have hmark1 := markAuthCodeUsed_fresh_append used1 "GURU2025" now1
      (st.registeredUsers ++ [Code.mkAccount sha256hex now1 iso1 d1]) st.authCodes
      (issuedGuruEntry iso0) (fun c hc => hcodes c hc) rfl
  have hr1 : Code.registerUser sha256hex now1 iso1 used1 d1
      { st with authCodes := st.authCodes ++ [issuedGuruEntry iso0] } =
      (.ok now1,
       { registeredUsers := st.registeredUsers ++ [Code.mkAccount sha256hex now1 iso1 d1],
         authCodes := st.authCodes ++ [usedGuruEntry iso0 used1 now1] }) := by
    rw [codeRegisterUser_eq, hspec1]
    have hid : (Code.mkAccount sha256hex now1 iso1 d1).id = now1 := rfl
    simp only [hcond1, if_true, hid]
    rw [hd1code, hmark1]
    rfl
  have hne1 : d1.username ≠ d2.username := fun h => hd2ne h.symm
  have hfreshB : (st.registeredUsers ++ [Code.mkAccount sha256hex now1 iso1 d1]).find?
      (fun u => u.username == d2.username) = none := by
    rw [List.find?_append]
    rw [List.find?_eq_none.mpr (fun u hu => by simpa using hd2fresh u hu)]
    simp [Code.mkAccount, hne1]
  have hfindB : (st.authCodes ++ [usedGuruEntry iso0 used1 now1]).find?
      (fun c => c.code == "GURU2025") = some (usedGuruEntry iso0 used1 now1) := by
    rw [List.find?_append, hfind0]
    simp [usedGuruEntry]
  have hinvalid2 : Code.isAuthCodeValid "GURU2025"
      { registeredUsers := st.registeredUsers ++ [Code.mkAccount sha256hex now1 iso1 d1],
        authCodes := st.authCodes ++ [usedGuruEntry iso0 used1 now1] } = false := by
    simp [Code.isAuthCodeValid, hfind0, usedGuruEntry]
  have hspec2 : Code.specFirstRegistrationError d2
      { registeredUsers := st.registeredUsers ++ [Code.mkAccount sha256hex now1 iso1 d1],
        authCodes := st.authCodes ++ [usedGuruEntry iso0 used1 now1] } =
      some "Kode autentikasi tidak valid atau sudah dipakai. Minta kode baru ke admin." := by
    unfold Code.specFirstRegistrationError
    simp [hd2u, hd2p, hd2f, hd2role, hd2un, hd2ps, hfreshB, hd2code, hvac, hinvalid2]
  have hr2 : Code.registerUser sha256hex now2 iso2 used2 d2
      { registeredUsers := st.registeredUsers ++ [Code.mkAccount sha256hex now1 iso1 d1],
        authCodes := st.authCodes ++ [usedGuruEntry iso0 used1 now1] } =
      (.error "Kode autentikasi tidak valid atau sudah dipakai. Minta kode baru ke admin.",
       { registeredUsers := st.registeredUsers ++ [Code.mkAccount sha256hex now1 iso1 d1],
         authCodes := st.authCodes ++ [usedGuruEntry iso0 used1 now1] }) := by
    rw [codeRegisterUser_eq, hspec2]
  exact ⟨hcreate, hr1, hfindB, rfl, rfl, hr2⟩

/-- C1 witness: a concrete valid teacher registration followed by a
successful authentication returning the sanitized view. -/
theorem c1_register_then_authenticate_witness :
    (Nip.authenticateUser (fun s => s) "guru1" "Abcd123!"
        (Nip.registerUser (fun s => s) 1 "T" sampleTeacher ⟨[]⟩).2).1 =
      some [("id", .num 1), ("username", .str "guru1"), ("fullName", .str "Guru Satu"),
            ("email", .str "guru@sekolah.id"), ("role", .str "teacher"),
            ("nisn", .str ""), ("nip", .str "123456789012345678"),
            ("mapelMengajar", .str "Informatika"), ("kelasMengajar", .str "XI")] := by
  have h := c1_register_then_authenticate (fun s => s) 1 "T" sampleTeacher ⟨[]⟩
    (by decide) (by decide) (by decide) (by decide) (by decide) (by decide)
    (by intro u hu; cases hu)
    (by intro hr
        refine ⟨by decide, by decide, ?_, by decide, by decide, by decide, by decide⟩
        intro u hu
        cases hu)
  exact h.2.1

/-- C2 witness: a registration input with an empty username aborts both
variants with the MissingField message and no write. -/
theorem c2_first_failing_check_aborts_witness :
    (Nip.registerUser (fun s => s) 1 "T" { sampleTeacher with username := "" } ⟨[]⟩).2 = ⟨[]⟩ ∧
    Nip.specFirstRegistrationError { sampleTeacher with username := "" } [] =
      some "All fields are required" ∧
    (Code.registerUser (fun s => s) 1 "T" "U" { sampleTeacher with username := "" } ⟨[], []⟩).2 =
      ⟨[], []⟩ ∧
    Code.specFirstRegistrationError { sampleTeacher with username := "" } ⟨[], []⟩ =
      some "Semua bidang harus diisi — jangan biarkan kolom kosong seperti hati tanpa kopi." :=
  c2_first_failing_check_aborts (fun s => s) 1 "T" "U"
    { sampleTeacher with username := "" } ⟨[]⟩ ⟨[], []⟩
    "All fields are required"
    "Semua bidang harus diisi — jangan biarkan kolom kosong seperti hati tanpa kopi."
    rfl rfl

/-- C3 witness: re-registering the username "guru1" over a registry that
already holds it fails with the DuplicateUsername message of each
variant, the registry unchanged. -/
theorem c3_duplicate_username_witness :
    Nip.registerUser (fun s => s) 1 "T" sampleTeacher ⟨[sampleStoredAccount]⟩ =
      (.error "Username sudah terdaftar", ⟨[sampleStoredAccount]⟩) ∧
    Code.registerUser (fun s => s) 1 "T" "U" sampleTeacher ⟨[sampleStoredAccountC], []⟩ =
      (.error "Nama pengguna sudah terdaftar — coba variasi lain.",
       ⟨[sampleStoredAccountC], []⟩) := by
  have h := c3_duplicate_username (fun s => s) 1 "T" "U" sampleTeacher
    ⟨[sampleStoredAccount]⟩ ⟨[sampleStoredAccountC], []⟩
    (by decide) (by decide) (by decide) (by decide) (by decide) (by decide)
    ⟨sampleStoredAccount, by simp, rfl⟩ ⟨sampleStoredAccountC, by simp, rfl⟩
  exact ⟨h.1, h.2.1⟩

/-- C5 witness: the concrete "GURU2025" single-use scenario — the first
teacher consumes the code, the second is rejected with no state change. -/
theorem c5_auth_code_single_use_witness :
    Code.registerUser (fun s => s) 1 "B" "C" sampleTeacher
        { registeredUsers := [], authCodes := [issuedGuruEntry "A"] } =
      (.ok 1, { registeredUsers := [Code.mkAccount (fun s => s) 1 "B" sampleTeacher],
                authCodes := [usedGuruEntry "A" "C" 1] }) ∧
    Code.registerUser (fun s => s) 2 "D" "E" { sampleTeacher with username := "guru2" }
        { registeredUsers := [Code.mkAccount (fun s => s) 1 "B" sampleTeacher],
          authCodes := [usedGuruEntry "A" "C" 1] } =
      (.error "Kode autentikasi tidak valid atau sudah dipakai. Minta kode baru ke admin.",
       { registeredUsers := [Code.mkAccount (fun s => s) 1 "B" sampleTeacher],
         authCodes := [usedGuruEntry "A" "C" 1] }) := by
  have h := c5_auth_code_single_use (fun s => s) 1 2 "A" "B" "C" "D" "E" ⟨[], []⟩
    sampleTeacher { sampleTeacher with username := "guru2" }
    (fun c hc => by cases hc)
    (by decide) (by decide) (by decide) (by decide) (by decide) (by decide) (by decide)
    (fun u hu => by cases hu)
    (by decide) (by decide) (by decide) (by decide)
    (by decide) (by decide) (by decide) (by decide) (by decide) (by decide) (by decide)
    (fun u hu => by cases hu)
    (by decide)
  exact ⟨h.2.1, h.2.2.2.2.2⟩

/-- C7 witness: the 18-digit sample NIP passes, "12345" fails, and a
concrete teacher registration carrying NIP "12345" aborts with the
InvalidTeacherIdentifier message. -/
theorem c7_nip_policy_witness :
    validateTeacherNIP "123456789012345678" = true ∧
    validateTeacherNIP "12345" = false ∧
    Nip.registerUser (fun s => s) 1 "T" { sampleTeacher with nip := "12345" } ⟨[]⟩ =
      (.error "NIP harus 18 digit angka", ⟨[]⟩) := by
  have h := c7_nip_policy (fun s => s) 1 "T" { sampleTeacher with nip := "12345" } ⟨[]⟩
    (by decide) (by decide) (by decide) (by decide) (by decide)
    (by intro u hu; cases hu) rfl
  exact ⟨h.2.1, h.2.2.1, h.2.2.2.1 rfl⟩

/-- C8 witness: subject "Olahraga" aborts a concrete teacher registration
with the InvalidSubject message; subject "Informatika" lets it succeed. -/
theorem c8_subject_whitelist_witness :
    validateTeacherSubject "Olahraga" = false ∧
    Nip.registerUser (fun s => s) 1 "T" { sampleTeacher with mapelMengajar := "Olahraga" } ⟨[]⟩ =
      (.error ("Mata pelajaran tidak valid. Pilih dari: " ++
        String.intercalate ", " VALID_SUBJECTS), ⟨[]⟩) ∧
    Nip.registerUser (fun s => s) 1 "T" sampleTeacher ⟨[]⟩ =
      (.ok 1, ⟨[Nip.mkAccount (fun s => s) 1 "T" sampleTeacher]⟩) := by
  have hA := c8_subject_whitelist (fun s => s) 1 "T"
      { sampleTeacher with mapelMengajar := "Olahraga" } ⟨[]⟩
    (by decide) (by decide) (by decide) (by decide) (by decide)
    (by intro u hu; cases hu) rfl (by decide) (by intro u hu; cases hu)
    (by decide) (by decide)
  have hB := c8_subject_whitelist (fun s => s) 1 "T" sampleTeacher ⟨[]⟩
    (by decide) (by decide) (by decide) (by decide) (by decide)
    (by intro u hu; cases hu) rfl (by decide) (by intro u hu; cases hu)
    (by decide) (by decide)
  exact ⟨hA.2.2.1, hA.2.2.2.2.1 rfl, hB.2.2.2.2.2 rfl⟩
